import Mathlib

/-!
Verification of the checkout relay in `src/app.ts` (braintree-render).

The embedding models:
* `retryAsync` (src/app.ts lines 32-45) as a pure trace-producing function
  `BraintreeApp.retryAsync`: the n-th invocation of the wrapped operation is
  given by `fn n : Except ε α`; the trace records the result (`Except (Option ε) α`,
  where `Except.error none` models `throw lastError` with `lastError` still
  `undefined`), the number of invocations, and the list of inter-attempt delays
  actually slept.
* the `POST /checkout` handler (src/app.ts lines 61-127) as
  `BraintreeApp.checkout`: request-body fields are JavaScript values
  (`JValue`, with JavaScript truthiness), the single `gateway.transaction.sale`
  call is the environment's `saleAttempt 0`, each `database.createDocument`
  attempt is `persistAttempt i`, and the outcome records the HTTP response,
  the list of remote operations performed, the Order record built and the
  Order record successfully persisted.
-/

namespace BraintreeApp

/-- A JavaScript value as far as the handler inspects one: `undef` is
`undefined`, the other constructors carry the payloads the code reads.
Truthiness below follows JavaScript. -/
inductive JValue where
  | undef : JValue
  | null : JValue
  | bool : Bool → JValue
  | num : Int → JValue
  | str : String → JValue
deriving DecidableEq, Repr

/-- JavaScript truthiness: `undefined`, `null`, `false`, `0` and `""` are
falsy, everything else modelled here is truthy. -/
def JValue.truthy : JValue → Bool
  | JValue.undef => false
  | JValue.null => false
  | JValue.bool b => b
  | JValue.num n => n != 0
  | JValue.str s => s != ""

/-- A thrown JavaScript error, reduced to the `message` property — the only
property the handler reads (`err.message`, `error.message`). -/
structure JSError where
  message : String
deriving DecidableEq, Repr

/-- The trace of one `retryAsync` run: the value returned or error thrown
(`Except.error none` = the function threw the uninitialised `lastError`,
i.e. `undefined`), how many times the wrapped operation was invoked, and the
delays slept between attempts, in order. -/
structure RetryTrace (ε α : Type) where
  result : Except (Option ε) α
  calls : Nat
  delays : List Nat
deriving Repr

/-- The loop of `retryAsync` (src/app.ts lines 34-43), recursing on the number
of remaining iterations; `i` is the loop counter of the source, and the guard
`i < retries - 1` of line 39 is equivalently `0 < remaining` after this
failure. The incoming `lastError` is only consulted when the loop is over
(line 44, `throw lastError`). -/
def retryLoop (fn : Nat → Except ε α) (delay : Nat) :
    Nat → Nat → Option ε → RetryTrace ε α
  | 0, _, lastError => ⟨Except.error lastError, 0, []⟩
  | remaining + 1, i, _ =>
    match fn i with
    | Except.ok v => ⟨Except.ok v, 1, []⟩
    | Except.error e =>
      let rest := retryLoop fn delay remaining (i + 1) (some e)
      ⟨rest.result, rest.calls + 1,
        (if 0 < remaining then [delay] else []) ++ rest.delays⟩

/-- `retryAsync(fn, retries, delay)` of src/app.ts lines 32-45: run the loop
from `i = 0` with `lastError` undefined. The source defaults `delay` to 1000;
call sites here pass it explicitly. -/
def retryAsync (fn : Nat → Except ε α) (retries : Nat) (delay : Nat) :
    RetryTrace ε α :=
  retryLoop fn delay retries 0 none

/-- The `transaction` object of a Braintree sale result, reduced to the two
properties the handler reads: `id` and `status`. -/
structure Transaction where
  id : String
  status : String
deriving DecidableEq, Repr

/-- The result object of `gateway.transaction.sale`: the `success` flag and
the possibly-absent `transaction` object (the code reads it both through
optional chaining, `result.transaction?.id`, and directly,
`result.transaction.status`). -/
structure SaleResult where
  success : Bool
  transaction : Option Transaction
deriving DecidableEq, Repr

/-- The fields of the `POST /checkout` request body that the handler
destructures (src/app.ts line 62), each a JavaScript value; an absent field
destructures to `undefined`. -/
structure CheckoutBody where
  name : JValue
  email : JValue
  phone : JValue
  shippingAddress : JValue
  billingAddress : JValue
  orderDetails : JValue
  payment_method_nonce : JValue
  amount : JValue
  deviceData : JValue
deriving DecidableEq, Repr

/-- The order record built at src/app.ts lines 82-93. `transactionId` is
`result.transaction?.id`, hence optional. -/
structure Order where
  name : JValue
  email : JValue
  phone : JValue
  shippingAddress : JValue
  billingAddress : JValue
  orderId : String
  orderDetails : JValue
  creationTime : String
  status : String
  transactionId : Option String
deriving DecidableEq, Repr

/-- A remote operation performed by the handler. The source only ever issues
`gateway.transaction.sale` and `database.createDocument`; the refund and void
constructors name the gateway operations the source could issue to roll a
charge back, so that their absence from every trace is expressible. -/
inductive RemoteOp where
  | sale : RemoteOp
  | createDocument : String → Order → RemoteOp
  | refundTransaction : String → RemoteOp
  | voidTransaction : String → RemoteOp
deriving DecidableEq, Repr

/-- An HTTP response: status code and JSON body as an ordered field list. -/
structure HttpResp where
  status : Nat
  body : List (String × JValue)
deriving DecidableEq, Repr

/-- The environment of one `/checkout` request: the outcome of the n-th
`gateway.transaction.sale` invocation (the source performs only invocation 0),
the outcome of the n-th `database.createDocument` attempt, the value of
`generateOrderId()` and of `new Date().toISOString()`. -/
structure CheckoutEnv where
  saleAttempt : Nat → Except JSError SaleResult
  persistAttempt : Nat → Except JSError Unit
  orderId : String
  now : String

/-- Everything observable about one handler run: the response sent, the remote
operations performed in order, the Order record built (if any), and the Order
record successfully persisted (if any). -/
structure CheckoutOutcome where
  response : HttpResp
  ops : List RemoteOp
  builtOrder : Option Order
  persisted : Option Order
deriving Repr

/-- The validation of src/app.ts line 64,
`!name || !email || !shippingAddress || !orderDetails || !payment_method_nonce || !amount`,
phrased as: all six required fields are truthy. -/
def requiredPresent (b : CheckoutBody) : Bool :=
  b.name.truthy && b.email.truthy && b.shippingAddress.truthy &&
    b.orderDetails.truthy && b.payment_method_nonce.truthy && b.amount.truthy

/-- `undefined` serialises to an absent JSON field; a present string is a JSON
string. Used for `transactionId: result.transaction?.id`. -/
def optToJ : Option String → JValue
  | some s => JValue.str s
  | none => JValue.undef

/-- The message of the TypeError Node raises at src/app.ts line 120 when
`result.success` is false and `result.transaction` is `undefined`
(reading `.status` of `undefined`); Node also quotes the property name,
omitted here. -/
def typeErrorStatusMessage : String :=
  "Cannot read properties of undefined (reading status)"

/-- The `POST /checkout` handler, src/app.ts lines 61-127. -/
def checkout (env : CheckoutEnv) (b : CheckoutBody) : CheckoutOutcome :=
  if requiredPresent b = false then
    { response := ⟨400, [("ok", JValue.bool false),
        ("message", JValue.str "Missing required fields")]⟩,
      ops := [], builtOrder := none, persisted := none }
  else
    match env.saleAttempt 0 with
    | Except.error err =>
      { response := ⟨500, [("ok", JValue.bool false),
          ("error", JValue.str err.message)]⟩,
        ops := [RemoteOp.sale], builtOrder := none, persisted := none }
    | Except.ok result =>
      if result.success then
        let order : Order :=
          { name := b.name, email := b.email, phone := b.phone,
            shippingAddress := b.shippingAddress,
            billingAddress := b.billingAddress,
            orderId := env.orderId, orderDetails := b.orderDetails,
            creationTime := env.now, status := "Pending",
            transactionId := Option.map Transaction.id result.transaction }
        let rt := retryAsync env.persistAttempt 3 1000
        match rt.result with
        | Except.ok _ =>
          { response := ⟨200, [("ok", JValue.bool true),
              ("orderId", JValue.str env.orderId),
              ("transactionId",
                optToJ (Option.map Transaction.id result.transaction))]⟩,
            ops := RemoteOp.sale ::
              List.replicate rt.calls (RemoteOp.createDocument env.orderId order),
            builtOrder := some order, persisted := some order }
        | Except.error _ =>
          { response := ⟨500, [("ok", JValue.bool false),
              ("message", JValue.str
                "Payment processed but order creation failed. Please contact support."),
              ("transactionId",
                optToJ (Option.map Transaction.id result.transaction))]⟩,
            ops := RemoteOp.sale ::
              List.replicate rt.calls (RemoteOp.createDocument env.orderId order),
            builtOrder := some order, persisted := none }
      else
        match result.transaction with
        | some t =>
          { response := ⟨400, [("ok", JValue.bool false),
              ("message", JValue.str t.status)]⟩,
            ops := [RemoteOp.sale], builtOrder := none, persisted := none }
        | none =>
          { response := ⟨500, [("ok", JValue.bool false),
              ("error", JValue.str typeErrorStatusMessage)]⟩,
            ops := [RemoteOp.sale], builtOrder := none, persisted := none }

/-- Recognises the `gateway.transaction.sale` operation in a trace. -/
def isSale : RemoteOp → Bool
  | RemoteOp.sale => true
  | _ => false

/-- Recognises a `database.createDocument` attempt in a trace. -/
def isCreate : RemoteOp → Bool
  | RemoteOp.createDocument _ _ => true
  | _ => false

/-- Number of `gateway.transaction.sale` invocations in a trace. -/
def countSale (ops : List RemoteOp) : Nat := (ops.filter isSale).length

/-- Number of `database.createDocument` attempts in a trace. -/
def countCreate (ops : List RemoteOp) : Nat := (ops.filter isCreate).length

deriving instance DecidableEq for Except

/-- If the operation fails at indices `i, i+1, ..., i+k-1` and succeeds at
index `i+k`, with `k` strictly below the remaining iteration budget, the loop
returns the success value after `k+1` invocations and `k` delays. -/
theorem retryLoop_ok (fn : Nat → Except ε α) (delay : Nat) (e : Nat → ε) (v : α)
    (k : Nat) :
    ∀ (remaining i : Nat) (last : Option ε), k < remaining →
      (∀ j, j < k → fn (i + j) = Except.error (e (i + j))) →
      fn (i + k) = Except.ok v →
      retryLoop fn delay remaining i last =
        ⟨Except.ok v, k + 1, List.replicate k delay⟩ := by
  induction k with
  | zero =>
    intro remaining i last hk _ hok
    match remaining, hk with
    | r + 1, _ =>
      have h0 : fn i = Except.ok v := by simpa using hok
      simp [retryLoop, h0]
  | succ k ih =>
    intro remaining i last hk hfail hok
    match remaining, hk with
    | r + 1, hk =>
      have hr : k < r := by omega
      have h0 : fn i = Except.error (e i) := by simpa using hfail 0 (by omega)
      have hfail2 : ∀ j, j < k → fn (i + 1 + j) = Except.error (e (i + 1 + j)) := by
        intro j hj
        have h := hfail (j + 1) (by omega)
        have harg : i + (j + 1) = i + 1 + j := by omega
        rwa [harg] at h
      have hok2 : fn (i + 1 + k) = Except.ok v := by
        have harg : i + (k + 1) = i + 1 + k := by omega
        rwa [harg] at hok
      have hrest := ih r (i + 1) (some (e i)) hr hfail2 hok2
      have hrpos : 0 < r := by omega
      simp [retryLoop, h0, hrest, hrpos, List.replicate_succ]

/-- If the operation fails at every index `i, ..., i + remaining - 1`, the
loop performs all `remaining` invocations, sleeps `remaining - 1` delays, and
throws the error of the last attempt. -/
theorem retryLoop_all_fail (fn : Nat → Except ε α) (delay : Nat) (e : Nat → ε) :
    ∀ (remaining i : Nat) (last : Option ε), 1 ≤ remaining →
      (∀ j, j < remaining → fn (i + j) = Except.error (e (i + j))) →
      retryLoop fn delay remaining i last =
        ⟨Except.error (some (e (i + (remaining - 1)))), remaining,
          List.replicate (remaining - 1) delay⟩ := by
  intro remaining
  induction remaining with
  | zero => intro i last h _; omega
  | succ r ih =>
    intro i last _ hfail
    have h0 : fn i = Except.error (e i) := by simpa using hfail 0 (by omega)
    rcases Nat.eq_zero_or_pos r with hr0 | hrpos
    · subst hr0
      simp [retryLoop, h0]
    · have hfail2 : ∀ j, j < r → fn (i + 1 + j) = Except.error (e (i + 1 + j)) := by
        intro j hj
        have h := hfail (j + 1) (by omega)
        have harg : i + (j + 1) = i + 1 + j := by omega
        rwa [harg] at h
      have hrest := ih (i + 1) (some (e i)) hrpos hfail2
      have h1 : i + 1 + (r - 1) = i + r := by omega
      rw [h1] at hrest
      have h3 : delay :: List.replicate (r - 1) delay = List.replicate r delay := by
        conv_rhs => rw [(by omega : r = r - 1 + 1)]
        rw [List.replicate_succ]
      simp [retryLoop, h0, hrest, hrpos, h3]

/-- C2: for every maximum attempt count `N ≥ 1`, delay `D`, and operation
that fails exactly `k < N` times and then succeeds, `retryAsync` returns the
success value, invokes the operation exactly `k+1` times, and sleeps exactly
`k` inter-attempt delays of length `D` (none after the final attempt). -/
theorem C2_retry_returns_after_k_failures (fn : Nat → Except ε α)
    (N D k : Nat) (e : Nat → ε) (v : α) (_hN : 1 ≤ N) (hk : k < N)
    (hfail : ∀ i, i < k → fn i = Except.error (e i))
    (hok : fn k = Except.ok v) :
    retryAsync fn N D = ⟨Except.ok v, k + 1, List.replicate k D⟩ := by
  unfold retryAsync
  exact retryLoop_ok fn D e v k N 0 none hk
    (by intro j hj; simpa using hfail j hj) (by simpa using hok)

/-- Operation that fails on attempts 0 and 1 and succeeds on attempt 2,
exercising C2 and C7. -/
def demoFlaky : Nat → Except String Nat := fun i =>
  if i < 2 then Except.error (toString i) else Except.ok 42

/-- Witness for C2: `demoFlaky` under `retryAsync` with 3 attempts and delay 5
returns 42 after 3 invocations and 2 delays. -/
theorem C2_witness :
    (1 ≤ 3 ∧ 2 < 3 ∧ (∀ i, i < 2 → demoFlaky i = Except.error (toString i)) ∧
      demoFlaky 2 = Except.ok 42) ∧
    retryAsync demoFlaky 3 5 = ⟨Except.ok 42, 2 + 1, List.replicate 2 5⟩ :=
  ⟨⟨by decide, by decide, by decide, by decide⟩,
    C2_retry_returns_after_k_failures demoFlaky 3 5 2 (fun i => toString i) 42
      (by decide) (by decide) (by decide) (by decide)⟩

/-- C3: for every maximum attempt count `N ≥ 1` and an operation that fails
on every attempt, `retryAsync` invokes the operation exactly `N` times and
throws the last attempt's error unchanged (wrapped only in the `some` that
records that `lastError` was assigned). -/
theorem C3_retry_all_attempts_fail (fn : Nat → Except ε α) (N D : Nat)
    (e : Nat → ε) (hN : 1 ≤ N)
    (hfail : ∀ i, i < N → fn i = Except.error (e i)) :
    retryAsync fn N D =
      ⟨Except.error (some (e (N - 1))), N, List.replicate (N - 1) D⟩ := by
  unfold retryAsync
  have h := retryLoop_all_fail fn D e N 0 none hN
    (by intro j hj; simpa using hfail j hj)
  simpa using h

/-- Operation that fails on every attempt, exercising C3. -/
def demoAlwaysFails : Nat → Except String Nat := fun i =>
  Except.error (toString i)

/-- Witness for C3: `demoAlwaysFails` under `retryAsync` with 3 attempts and
delay 5 is invoked 3 times and throws the error of attempt 2. -/
theorem C3_witness :
    (1 ≤ 3 ∧ (∀ i, i < 3 → demoAlwaysFails i = Except.error (toString i))) ∧
    retryAsync demoAlwaysFails 3 5 =
      ⟨Except.error (some (toString (3 - 1))), 3, List.replicate (3 - 1) 5⟩ :=
  ⟨⟨by decide, by decide⟩,
    C3_retry_all_attempts_fail demoAlwaysFails 3 5 (fun i => toString i)
      (by decide) (by decide)⟩

/-- C9: `retryAsync` with `retries = 0` never invokes the operation, sleeps no
delay, and throws `none` — the model of the still-`undefined` `lastError` of
src/app.ts line 33 being thrown at line 44. -/
theorem C9_zero_retries_throws_undefined (fn : Nat → Except ε α) (D : Nat) :
    retryAsync fn 0 D = ⟨Except.error none, 0, []⟩ := rfl

/-- A request body with every required field present and truthy. -/
def okBody : CheckoutBody :=
  { name := JValue.str "Ada", email := JValue.str "ada@example.com",
    phone := JValue.undef, shippingAddress := JValue.str "1 Main St",
    billingAddress := JValue.undef, orderDetails := JValue.str "widget x1",
    payment_method_nonce := JValue.str "fake-nonce",
    amount := JValue.str "10.00", deviceData := JValue.undef }

/-- `okBody` with `amount` absent (destructures to `undefined`). -/
def bodyNoAmount : CheckoutBody := { okBody with amount := JValue.undef }

/-- `okBody` with `amount` equal to the number 0, a falsy but present value. -/
def bodyZeroAmount : CheckoutBody := { okBody with amount := JValue.num 0 }

/-- Environment whose sale call fails at the transport level on every
invocation and whose persistence attempts all succeed. -/
def envSaleFails : CheckoutEnv :=
  { saleAttempt := fun _ => Except.error ⟨"network down"⟩,
    persistAttempt := fun _ => Except.ok (),
    orderId := "ORD1", now := "2024-01-01T00:00:00.000Z" }

/-- Environment whose sale call reports a business decline with status
string "Declined". -/
def envDeclined : CheckoutEnv :=
  { saleAttempt := fun _ => Except.ok ⟨false, some ⟨"TXD", "Declined"⟩⟩,
    persistAttempt := fun _ => Except.ok (),
    orderId := "ORD2", now := "2024-01-01T00:00:00.000Z" }

/-- C4: a checkout request with a required field absent is answered 400
"Missing required fields" and no remote operation is performed. -/
theorem C4_missing_required_field_rejected (env : CheckoutEnv)
    (b : CheckoutBody)
    (h : b.name = JValue.undef ∨ b.email = JValue.undef ∨
      b.shippingAddress = JValue.undef ∨ b.orderDetails = JValue.undef ∨
      b.payment_method_nonce = JValue.undef ∨ b.amount = JValue.undef) :
    (checkout env b).response =
      ⟨400, [("ok", JValue.bool false),
        ("message", JValue.str "Missing required fields")]⟩ ∧
    (checkout env b).ops = [] := by
  have hreq : requiredPresent b = false := by
    rcases h with h | h | h | h | h | h <;>
      simp [requiredPresent, h, JValue.truthy]
  simp [checkout, hreq]

/-- Witness for C4: dropping `amount` from a fully-populated body yields the
400 response with zero remote calls. -/
theorem C4_witness :
    (bodyNoAmount.name = JValue.undef ∨ bodyNoAmount.email = JValue.undef ∨
      bodyNoAmount.shippingAddress = JValue.undef ∨
      bodyNoAmount.orderDetails = JValue.undef ∨
      bodyNoAmount.payment_method_nonce = JValue.undef ∨
      bodyNoAmount.amount = JValue.undef) ∧
    ((checkout envSaleFails bodyNoAmount).response =
      ⟨400, [("ok", JValue.bool false),
        ("message", JValue.str "Missing required fields")]⟩ ∧
    (checkout envSaleFails bodyNoAmount).ops = []) :=
  ⟨by decide,
    C4_missing_required_field_rejected envSaleFails bodyNoAmount (by decide)⟩

/-- C10: a required field that is present but falsy (empty-string name or
email, amount 0) is treated exactly like a missing field: 400 "Missing
required fields" and no remote calls. -/
theorem C10_falsy_required_field_rejected (env : CheckoutEnv)
    (b : CheckoutBody)
    (h : b.name = JValue.str "" ∨ b.email = JValue.str "" ∨
      b.amount = JValue.num 0) :
    (checkout env b).response =
      ⟨400, [("ok", JValue.bool false),
        ("message", JValue.str "Missing required fields")]⟩ ∧
    (checkout env b).ops = [] := by
  have hreq : requiredPresent b = false := by
    rcases h with h | h | h <;> simp [requiredPresent, h, JValue.truthy]
  simp [checkout, hreq]

/-- Witness for C10: `amount` equal to the number 0 is rejected like a
missing field. -/
theorem C10_witness :
    (bodyZeroAmount.name = JValue.str "" ∨
      bodyZeroAmount.email = JValue.str "" ∨
      bodyZeroAmount.amount = JValue.num 0) ∧
    ((checkout envSaleFails bodyZeroAmount).response =
      ⟨400, [("ok", JValue.bool false),
        ("message", JValue.str "Missing required fields")]⟩ ∧
    (checkout envSaleFails bodyZeroAmount).ops = []) :=
  ⟨by decide,
    C10_falsy_required_field_rejected envSaleFails bodyZeroAmount (by decide)⟩

/-- C5: a validated request whose sale call completes but reports business
failure is answered 400 with the gateway's transaction status string; no
order is built or persisted and `createDocument` is never invoked. -/
theorem C5_decline_rejected_no_persist (env : CheckoutEnv) (b : CheckoutBody)
    (r : SaleResult) (t : Transaction)
    (hreq : requiredPresent b = true)
    (hs : env.saleAttempt 0 = Except.ok r)
    (hfb : r.success = false)
    (ht : r.transaction = some t) :
    (checkout env b).response =
      ⟨400, [("ok", JValue.bool false), ("message", JValue.str t.status)]⟩ ∧
    (checkout env b).builtOrder = none ∧
    (checkout env b).persisted = none ∧
    countCreate (checkout env b).ops = 0 := by
  simp [checkout, hreq, hs, hfb, ht, countCreate, List.filter_cons,
    List.filter_nil, isCreate]

/-- Witness for C5: a declined sale on a fully-populated body yields 400
"Declined" and zero persistence attempts. -/
theorem C5_witness :
    (requiredPresent okBody = true ∧
      envDeclined.saleAttempt 0 =
        Except.ok ⟨false, some ⟨"TXD", "Declined"⟩⟩ ∧
      (SaleResult.mk false (some ⟨"TXD", "Declined"⟩)).success = false ∧
      (SaleResult.mk false (some ⟨"TXD", "Declined"⟩)).transaction =
        some ⟨"TXD", "Declined"⟩) ∧
    ((checkout envDeclined okBody).response =
      ⟨400, [("ok", JValue.bool false),
        ("message", JValue.str (Transaction.mk "TXD" "Declined").status)]⟩ ∧
    (checkout envDeclined okBody).builtOrder = none ∧
    (checkout envDeclined okBody).persisted = none ∧
    countCreate (checkout envDeclined okBody).ops = 0) :=
  ⟨⟨by decide, by decide, by decide, by decide⟩,
    C5_decline_rejected_no_persist envDeclined okBody
      ⟨false, some ⟨"TXD", "Declined"⟩⟩ ⟨"TXD", "Declined"⟩
      (by decide) (by decide) (by decide) (by decide)⟩

/-- C8: a validated request whose sale call throws is answered 500 with body
`ok: false, error: <message>`; no order is built or persisted and
`createDocument` is never invoked. -/
theorem C8_sale_transport_error_surfaced (env : CheckoutEnv)
    (b : CheckoutBody) (err : JSError)
    (hreq : requiredPresent b = true)
    (hs : env.saleAttempt 0 = Except.error err) :
    (checkout env b).response =
      ⟨500, [("ok", JValue.bool false), ("error", JValue.str err.message)]⟩ ∧
    (checkout env b).builtOrder = none ∧
    (checkout env b).persisted = none ∧
    countCreate (checkout env b).ops = 0 := by
  simp [checkout, hreq, hs, countCreate, List.filter_cons, List.filter_nil,
    isCreate]

/-- Witness for C8: a sale call failing with "network down" yields 500 with
that message and no persistence attempt. -/
theorem C8_witness :
    (requiredPresent okBody = true ∧
      envSaleFails.saleAttempt 0 = Except.error ⟨"network down"⟩) ∧
    ((checkout envSaleFails okBody).response =
      ⟨500, [("ok", JValue.bool false),
        ("error", JValue.str (JSError.mk "network down").message)]⟩ ∧
    (checkout envSaleFails okBody).builtOrder = none ∧
    (checkout envSaleFails okBody).persisted = none ∧
    countCreate (checkout envSaleFails okBody).ops = 0) :=
  ⟨⟨by decide, by decide⟩,
    C8_sale_transport_error_surfaced envSaleFails okBody ⟨"network down"⟩
      (by decide) (by decide)⟩

/-- Filtering a replicated list keeps all or nothing. -/
theorem length_filter_replicate (p : α → Bool) (n : Nat) (a : α) :
    ((List.replicate n a).filter p).length = if p a then n else 0 := by
  induction n with
  | zero => simp
  | succ n ih =>
    cases hpa : p a <;>
      simp [List.replicate_succ, List.filter_cons, hpa, ih]

/-- Environment where the sale succeeds with transaction "TX1" and every
persistence attempt fails. -/
def envPersistFails : CheckoutEnv :=
  { saleAttempt := fun _ =>
      Except.ok ⟨true, some ⟨"TX1", "submitted_for_settlement"⟩⟩,
    persistAttempt := fun _ => Except.error ⟨"db down"⟩,
    orderId := "ORD3", now := "2024-01-02T00:00:00.000Z" }

/-- Environment where the sale succeeds with transaction "TX1" and
persistence succeeds on its first attempt. -/
def envAllOk : CheckoutEnv :=
  { saleAttempt := fun _ =>
      Except.ok ⟨true, some ⟨"TX1", "submitted_for_settlement"⟩⟩,
    persistAttempt := fun _ => Except.ok (),
    orderId := "ORD4", now := "2024-01-03T00:00:00.000Z" }

/-- C7: a validated request whose sale succeeds and whose persistence
(under the 3-attempt retry) succeeds is answered 200 with
`ok: true, orderId, transactionId`, and the persisted Order record carries
status "Pending", the creation timestamp, and the charge's transactionId. -/
theorem C7_success_persists_order (env : CheckoutEnv) (b : CheckoutBody)
    (r : SaleResult) (t : Transaction)
    (hreq : requiredPresent b = true)
    (hs : env.saleAttempt 0 = Except.ok r)
    (hsucc : r.success = true)
    (ht : r.transaction = some t)
    (hp : (retryAsync env.persistAttempt 3 1000).result = Except.ok ()) :
    (checkout env b).response =
      ⟨200, [("ok", JValue.bool true), ("orderId", JValue.str env.orderId),
        ("transactionId", JValue.str t.id)]⟩ ∧
    (checkout env b).persisted = some
      { name := b.name, email := b.email, phone := b.phone,
        shippingAddress := b.shippingAddress,
        billingAddress := b.billingAddress,
        orderId := env.orderId, orderDetails := b.orderDetails,
        creationTime := env.now, status := "Pending",
        transactionId := some t.id } := by
  simp [checkout, hreq, hs, hsucc, ht, hp, optToJ]

/-- Witness for C7: with a fully-populated body, a successful sale "TX1" and
first-attempt persistence success, the response is 200 and the order record
is persisted with status "Pending". -/
theorem C7_witness :
    (requiredPresent okBody = true ∧
      envAllOk.saleAttempt 0 =
        Except.ok ⟨true, some ⟨"TX1", "submitted_for_settlement"⟩⟩ ∧
      (SaleResult.mk true
        (some ⟨"TX1", "submitted_for_settlement"⟩)).success = true ∧
      (SaleResult.mk true
        (some ⟨"TX1", "submitted_for_settlement"⟩)).transaction =
        some ⟨"TX1", "submitted_for_settlement"⟩ ∧
      (retryAsync envAllOk.persistAttempt 3 1000).result = Except.ok ()) ∧
    ((checkout envAllOk okBody).response =
      ⟨200, [("ok", JValue.bool true),
        ("orderId", JValue.str envAllOk.orderId),
        ("transactionId",
          JValue.str (Transaction.mk "TX1" "submitted_for_settlement").id)]⟩ ∧
    (checkout envAllOk okBody).persisted = some
      { name := okBody.name, email := okBody.email, phone := okBody.phone,
        shippingAddress := okBody.shippingAddress,
        billingAddress := okBody.billingAddress,
        orderId := envAllOk.orderId, orderDetails := okBody.orderDetails,
        creationTime := envAllOk.now, status := "Pending",
        transactionId :=
          some (Transaction.mk "TX1" "submitted_for_settlement").id }) :=
  ⟨⟨by decide, by decide, by decide, by decide, by decide⟩,
    C7_success_persists_order envAllOk okBody
      ⟨true, some ⟨"TX1", "submitted_for_settlement"⟩⟩
      ⟨"TX1", "submitted_for_settlement"⟩
      (by decide) (by decide) (by decide) (by decide) (by decide)⟩

/-- C6: a validated request whose sale succeeds but whose persistence fails
on all 3 attempts is answered 500 with the "contact support" message and the
charge's transactionId; nothing is persisted and no refund or void of the
charge is ever issued. -/
theorem C6_persist_failure_contact_support (env : CheckoutEnv)
    (b : CheckoutBody) (r : SaleResult) (t : Transaction) (e : Nat → JSError)
    (hreq : requiredPresent b = true)
    (hs : env.saleAttempt 0 = Except.ok r)
    (hsucc : r.success = true)
    (ht : r.transaction = some t)
    (hp : ∀ i, i < 3 → env.persistAttempt i = Except.error (e i)) :
    (checkout env b).response =
      ⟨500, [("ok", JValue.bool false),
        ("message", JValue.str
          "Payment processed but order creation failed. Please contact support."),
        ("transactionId", JValue.str t.id)]⟩ ∧
    (checkout env b).persisted = none ∧
    (∀ s, RemoteOp.refundTransaction s ∉ (checkout env b).ops ∧
      RemoteOp.voidTransaction s ∉ (checkout env b).ops) := by
  have hrt : retryAsync env.persistAttempt 3 1000 =
      ⟨Except.error (some (e 2)), 3, List.replicate 2 1000⟩ := by
    have h := retryLoop_all_fail env.persistAttempt 1000 e 3 0 none
      (by omega) (by intro j hj; simpa using hp j hj)
    simpa [retryAsync] using h
  refine ⟨?_, ?_, ?_⟩
  · simp [checkout, hreq, hs, hsucc, ht, hrt, optToJ]
  · simp [checkout, hreq, hs, hsucc, ht, hrt]
  · intro s
    constructor <;>
      simp [checkout, hreq, hs, hsucc, ht, hrt, List.mem_replicate]

/-- Witness for C6: sale succeeds with "TX1", all three persistence attempts
fail with "db down"; the response is the 500 contact-support body carrying
"TX1", and the trace holds no refund or void. -/
theorem C6_witness :
    (requiredPresent okBody = true ∧
      envPersistFails.saleAttempt 0 =
        Except.ok ⟨true, some ⟨"TX1", "submitted_for_settlement"⟩⟩ ∧
      (SaleResult.mk true
        (some ⟨"TX1", "submitted_for_settlement"⟩)).success = true ∧
      (SaleResult.mk true
        (some ⟨"TX1", "submitted_for_settlement"⟩)).transaction =
        some ⟨"TX1", "submitted_for_settlement"⟩ ∧
      (∀ i, i < 3 →
        envPersistFails.persistAttempt i = Except.error ⟨"db down"⟩)) ∧
    ((checkout envPersistFails okBody).response =
      ⟨500, [("ok", JValue.bool false),
        ("message", JValue.str
          "Payment processed but order creation failed. Please contact support."),
        ("transactionId",
          JValue.str (Transaction.mk "TX1" "submitted_for_settlement").id)]⟩ ∧
    (checkout envPersistFails okBody).persisted = none ∧
    (∀ s, RemoteOp.refundTransaction s ∉ (checkout envPersistFails okBody).ops ∧
      RemoteOp.voidTransaction s ∉ (checkout envPersistFails okBody).ops)) :=
  ⟨⟨by decide, by decide, by decide, by decide, by decide⟩,
    C6_persist_failure_contact_support envPersistFails okBody
      ⟨true, some ⟨"TX1", "submitted_for_settlement"⟩⟩
      ⟨"TX1", "submitted_for_settlement"⟩ (fun _ => ⟨"db down"⟩)
      (by decide) (by decide) (by decide) (by decide) (by decide)⟩

/-- C1 is false on the code: the sale call is issued directly, not through
`retryAsync`. With a fully-populated body and a sale that fails at the
transport level on every invocation, the handler performs exactly 1 sale
call, whereas the claimed retry sequence under the persistence policy
(3 attempts) would perform 3. -/
theorem C1_counterexample :
    countSale (checkout envSaleFails okBody).ops = 1 ∧
    (retryAsync envSaleFails.saleAttempt 3 1000).calls = 3 ∧
    countSale (checkout envSaleFails okBody).ops ≠
      (retryAsync envSaleFails.saleAttempt 3 1000).calls := by
  refine ⟨?_, ?_, ?_⟩ <;> decide

/-- C1 amended: for every checkout request that passes validation, the
payment charge call is invoked exactly once — it is not wrapped in the Retry
Wrapper — while the document-create call alone runs under the 3-attempt
retry policy (its attempt count is exactly what `retryAsync` with 3 attempts
performs, and 0 when the charge does not succeed). -/
theorem C1_amended_charge_not_retried (env : CheckoutEnv) (b : CheckoutBody)
    (hreq : requiredPresent b = true) :
    countSale (checkout env b).ops = 1 ∧
    countCreate (checkout env b).ops =
      (match env.saleAttempt 0 with
       | Except.ok r =>
         if r.success then (retryAsync env.persistAttempt 3 1000).calls else 0
       | Except.error _ => 0) := by
  cases hs : env.saleAttempt 0 with
  | error err =>
    simp [checkout, hreq, hs, countSale, countCreate, List.filter_cons,
      List.filter_nil, isSale, isCreate]
  | ok r =>
    by_cases hsucc : r.success = true
    · cases hrt : (retryAsync env.persistAttempt 3 1000).result with
      | ok u =>
        simp [checkout, hreq, hs, hsucc, hrt, countSale, countCreate,
          List.filter_cons, isSale, isCreate, length_filter_replicate]
      | error e0 =>
        simp [checkout, hreq, hs, hsucc, hrt, countSale, countCreate,
          List.filter_cons, isSale, isCreate, length_filter_replicate]
    · cases ht : r.transaction with
      | some t =>
        simp [checkout, hreq, hs, hsucc, ht, countSale, countCreate,
          List.filter_cons, List.filter_nil, isSale, isCreate]
      | none =>
        simp [checkout, hreq, hs, hsucc, ht, countSale, countCreate,
          List.filter_cons, List.filter_nil, isSale, isCreate]

/-- Witness for the amended C1: with a fully-populated body and a sale call
that fails at the transport level, the handler performs exactly one sale
call and zero persistence attempts. -/
theorem C1_amended_witness :
    requiredPresent okBody = true ∧
    (countSale (checkout envSaleFails okBody).ops = 1 ∧
    countCreate (checkout envSaleFails okBody).ops =
      (match envSaleFails.saleAttempt 0 with
       | Except.ok r =>
         if r.success then
           (retryAsync envSaleFails.persistAttempt 3 1000).calls
         else 0
       | Except.error _ => 0)) :=
  ⟨by decide, C1_amended_charge_not_retried envSaleFails okBody (by decide)⟩

end BraintreeApp
